import Mathlib

/-!
Verification of the spacecraft_localizer core against its specification.

The development embeds, from the Python sources:
  - the multi-frame position reconciliation performed inline by
    plot_spacecraft_positions (psp_plus_mms.py, lines 92-105) and by
    main (psp_plus_mms_plus_parker_spiral.py, lines 283-290), over the
    rationals (the source arithmetic is plain component-wise division
    and addition of decimal literals);
  - the Parker-spiral surface model compute_parker_spiral_surface
    (psp_plus_mms_plus_parker_spiral.py, lines 24-61), over the reals;
  - the interactive parameter reader get_input
    (psp_plus_mms_plus_parker_spiral.py, lines 11-22).
-/

/-- A 3-component position vector with exact (rational) components, as
passed between the fetchers and the reconciliation code paths. -/
structure Vec3 where
  x : ℚ
  y : ℚ
  z : ℚ
  deriving DecidableEq

namespace PspPlusMms

/-- The kilometers-per-astronomical-unit constant of
plot_spacecraft_positions: psp_plus_mms.py line 92, "AU_km = 149597870.7". -/
def AU_km : ℚ := 149597870.7

/-- psp_plus_mms.py line 95: component-wise division of the Earth-centered
GSE position (km) by AU_km. -/
def mms_pos_au_rel (mms_pos : Vec3) : Vec3 :=
  ⟨mms_pos.x / AU_km, mms_pos.y / AU_km, mms_pos.z / AU_km⟩

/-- psp_plus_mms.py line 98: Earth assumed at (1, 0, 0) AU heliocentric. -/
def earth_heliocentric : Vec3 := ⟨1.0, 0.0, 0.0⟩

/-- psp_plus_mms.py lines 101-105: the reconciled heliocentric position,
Earth offset added component-wise after the km-to-AU conversion. -/
def mms_heliocentric (mms_pos : Vec3) : Vec3 :=
  ⟨earth_heliocentric.x + (mms_pos_au_rel mms_pos).x,
   earth_heliocentric.y + (mms_pos_au_rel mms_pos).y,
   earth_heliocentric.z + (mms_pos_au_rel mms_pos).z⟩

end PspPlusMms

namespace ParkerMain

/-- The kilometers-per-astronomical-unit literal used by main:
psp_plus_mms_plus_parker_spiral.py line 284 divides by 1.4959787e8
(which equals 149597870 exactly, one digit short of 149597870.7). -/
def AU_km : ℚ := 1.4959787e8

/-- psp_plus_mms_plus_parker_spiral.py line 284: component-wise division
of the GSE position (km) by the literal 1.4959787e8. -/
def mms_pos_au_rel (mms_pos : Vec3) : Vec3 :=
  ⟨mms_pos.x / AU_km, mms_pos.y / AU_km, mms_pos.z / AU_km⟩

/-- psp_plus_mms_plus_parker_spiral.py line 285. -/
def earth_heliocentric : Vec3 := ⟨1.0, 0.0, 0.0⟩

/-- psp_plus_mms_plus_parker_spiral.py lines 286-290: Earth offset added
component-wise after the km-to-AU conversion. -/
def mms_heliocentric (mms_pos : Vec3) : Vec3 :=
  ⟨earth_heliocentric.x + (mms_pos_au_rel mms_pos).x,
   earth_heliocentric.y + (mms_pos_au_rel mms_pos).y,
   earth_heliocentric.z + (mms_pos_au_rel mms_pos).z⟩

end ParkerMain

/-- Python str.strip() with no argument: the entry with leading and
trailing whitespace removed, over the character-list view of the
string. -/
def strip (s : List Char) : List Char :=
  ((s.dropWhile Char.isWhitespace).reverse.dropWhile Char.isWhitespace).reverse

/-- get_input (psp_plus_mms_plus_parker_spiral.py, lines 11-22): the
chosen number paired with whether the invalid-input warning was
printed.  The parse argument abstracts Python's float builtin (an
external primitive); the embedded code is the branch structure of
get_input: an entry whose strip() is empty returns the default
silently, an entry the parser rejects returns the default after
printing the warning, and any other entry returns its parsed value. -/
def get_input (parse : List Char → Option ℚ) (user_input : List Char) (default : ℚ) :
    ℚ × Bool :=
  if strip user_input = [] then (default, false)
  else
    match parse user_input with
    | some v => (v, false)
    | none => (default, true)

namespace ParkerSpiral

/-- Immutable parameter set of compute_parker_spiral_surface
(psp_plus_mms_plus_parker_spiral.py, lines 24-26), field names as in the
source signature. -/
structure SpiralParams where
  r_min : ℝ
  r_max : ℝ
  n_r : ℕ
  n_phi : ℕ
  tilt_deg : ℝ
  amp_deg : ℝ
  solar_rot_days : ℝ
  v_sw_km_s : ℝ

/-- Line 30: AU_km = 1.4959787e8 (km per AU), i.e. exactly 149597870. -/
noncomputable def AU_km : ℝ := 1.4959787e8

/-- Line 33: np.radians of the tilt angle. -/
noncomputable def tilt (p : SpiralParams) : ℝ := p.tilt_deg * Real.pi / 180

/-- Line 34: np.radians of the undulation amplitude. -/
noncomputable def amp (p : SpiralParams) : ℝ := p.amp_deg * Real.pi / 180

/-- Line 37: solar angular rotation rate in rad/day. -/
noncomputable def omega (p : SpiralParams) : ℝ := 2 * Real.pi / p.solar_rot_days

/-- Line 38: solar wind speed converted from km/s to AU/day. -/
noncomputable def v_sw_AU_day (p : SpiralParams) : ℝ :=
  p.v_sw_km_s * 86400 / AU_km

/-- Line 39: winding rate in rad/AU. -/
noncomputable def alpha (p : SpiralParams) : ℝ := omega p / v_sw_AU_day p

/-- np.linspace(a, b, n) at index i: n samples linearly spaced from a to b
inclusive.  For n = 1 the sole sample is a (the step term vanishes, as the
real division by zero is zero here and numpy special-cases num = 1). -/
noncomputable def linspace (a b : ℝ) (n : ℕ) (i : ℕ) : ℝ :=
  a + i * (b - a) / ((n : ℝ) - 1)

/-- Line 42: the n_r radial samples over the closed interval r_min..r_max. -/
noncomputable def r_vals (p : SpiralParams) (j : ℕ) : ℝ :=
  linspace p.r_min p.r_max p.n_r j

/-- Line 43: the n_phi azimuthal samples over 0..2*pi. -/
noncomputable def phi_vals (p : SpiralParams) (i : ℕ) : ℝ :=
  linspace 0 (2 * Real.pi) p.n_phi i

/-- Line 47: polar angle with sinusoidal undulation.  In the source this
is a full (n_phi, n_r) array; it depends only on the azimuthal index i
because meshgrid repeats phi_vals across each row. -/
noncomputable def theta (p : SpiralParams) (i : ℕ) : ℝ :=
  (Real.pi / 2 - tilt p) + amp p * Real.sin (2 * phi_vals p i)

/-- Line 50: spiral-twisted azimuth at grid cell (i, j). -/
noncomputable def Phi_spiral (p : SpiralParams) (i j : ℕ) : ℝ :=
  phi_vals p i + alpha p * (r_vals p j - p.r_min)

/-- Line 53: Cartesian x at grid cell (i, j). -/
noncomputable def xval (p : SpiralParams) (i j : ℕ) : ℝ :=
  r_vals p j * Real.sin (theta p i) * Real.cos (Phi_spiral p i j)

/-- Line 54: Cartesian y at grid cell (i, j). -/
noncomputable def yval (p : SpiralParams) (i j : ℕ) : ℝ :=
  r_vals p j * Real.sin (theta p i) * Real.sin (Phi_spiral p i j)

/-- Line 55: Cartesian z at grid cell (i, j). -/
noncomputable def zval (p : SpiralParams) (i j : ℕ) : ℝ :=
  r_vals p j * Real.cos (theta p i)

/-- Line 58: normalization constant of the field magnitude. -/
noncomputable def B0_norm (p : SpiralParams) : ℝ :=
  1 / Real.sqrt (1 + (omega p / v_sw_AU_day p) ^ 2 * (Real.cos (tilt p)) ^ 2)

/-- Line 59: normalized field magnitude at grid cell (i, j). -/
noncomputable def Bval (p : SpiralParams) (i j : ℕ) : ℝ :=
  B0_norm p * (1 / r_vals p j) ^ 2 *
    Real.sqrt (1 + (omega p * r_vals p j / v_sw_AU_day p) ^ 2 *
      (Real.sin (theta p i)) ^ 2)

/-- The x, y, z, B return arrays of compute_parker_spiral_surface, each a
list of n_phi rows of n_r reals (numpy meshgrid shape (n_phi, n_r)). -/
structure SpiralSurface where
  x : List (List ℝ)
  y : List (List ℝ)
  z : List (List ℝ)
  B : List (List ℝ)

/-- Runtime errors of the embedded Python fragment: dividing a Python
float scalar by zero raises ZeroDivisionError. -/
inductive PyError where
  | zeroDivisionError
  deriving DecidableEq

/-- Lines 42-61: the four arrays actually materialized once the scalar
prelude (lines 30-39) has succeeded.  All remaining operations are numpy
array arithmetic, which is total (it never raises on its own). -/
noncomputable def mkSurface (p : SpiralParams) : SpiralSurface :=
  ⟨List.ofFn fun i : Fin p.n_phi => List.ofFn fun j : Fin p.n_r => xval p i j,
   List.ofFn fun i : Fin p.n_phi => List.ofFn fun j : Fin p.n_r => yval p i j,
   List.ofFn fun i : Fin p.n_phi => List.ofFn fun j : Fin p.n_r => zval p i j,
   List.ofFn fun i : Fin p.n_phi => List.ofFn fun j : Fin p.n_r => Bval p i j⟩

/-- compute_parker_spiral_surface (lines 24-61).  The two scalar
divisions are Python float divisions and raise ZeroDivisionError when
their denominator is zero: line 37 (omega) when solar_rot_days = 0, and
line 39 (alpha) when v_sw_AU_day = 0, i.e. when v_sw_km_s = 0.  Both
happen before the grid of line 42 is built.  The function performs no
other checks: no InvalidParameterError exists anywhere in the source. -/
noncomputable def compute_parker_spiral_surface (p : SpiralParams) :
    Except PyError SpiralSurface :=
  if p.solar_rot_days = 0 then Except.error PyError.zeroDivisionError
  else if p.v_sw_km_s = 0 then Except.error PyError.zeroDivisionError
  else Except.ok (mkSurface p)

/-- The source defaults (lines 24-26): r_min 0.1, r_max 1.5, grid 100 by
100, tilt 10 deg, amplitude 15 deg, rotation 25.4 days, wind 400 km/s. -/
noncomputable def defaultParams : SpiralParams :=
  ⟨0.1, 1.5, 100, 100, 10.0, 15.0, 25.4, 400.0⟩

/-- Total cell access into a row-major grid, defaulting out of range:
row i, column j. -/
def cell (g : List (List ℝ)) (i j : ℕ) : ℝ := (g.getD i []).getD j 0

end ParkerSpiral

namespace ParkerSpiral

/-- Cell access into an outer-product grid built by nested List.ofFn. -/
theorem cell_ofFn {m n : ℕ} (f : ℕ → ℕ → ℝ) (i j : ℕ) (hi : i < m) (hj : j < n) :
    cell (List.ofFn fun a : Fin m => List.ofFn fun b : Fin n => f a b) i j = f i j := by
  have h1 : (List.ofFn fun a : Fin m => List.ofFn fun b : Fin n => f a b).getD i []
      = List.ofFn fun b : Fin n => f i b := by
    rw [List.getD_eq_getElem _ _ (by simpa using hi)]
    rw [List.getElem_ofFn]
  unfold ParkerSpiral.cell
  rw [h1]
  rw [List.getD_eq_getElem _ _ (by simpa using hj)]
  rw [List.getElem_ofFn]

/-- Row length of an outer-product grid built by nested List.ofFn. -/
theorem row_length_ofFn {m n : ℕ} (f : ℕ → ℕ → ℝ) (i : ℕ) (hi : i < m) :
    ((List.ofFn fun a : Fin m => List.ofFn fun b : Fin n => f a b).getD i []).length = n := by
  rw [List.getD_eq_getElem _ _ (by simpa using hi), List.getElem_ofFn, List.length_ofFn]

theorem cell_mkSurface_x (p : SpiralParams) (i j : ℕ) (hi : i < p.n_phi) (hj : j < p.n_r) :
    cell (mkSurface p).x i j = xval p i j := by
  show cell (List.ofFn fun a : Fin p.n_phi => List.ofFn fun b : Fin p.n_r => xval p a b) i j = _
  rw [cell_ofFn _ i j hi hj]

theorem cell_mkSurface_y (p : SpiralParams) (i j : ℕ) (hi : i < p.n_phi) (hj : j < p.n_r) :
    cell (mkSurface p).y i j = yval p i j := by
  show cell (List.ofFn fun a : Fin p.n_phi => List.ofFn fun b : Fin p.n_r => yval p a b) i j = _
  rw [cell_ofFn _ i j hi hj]

theorem cell_mkSurface_z (p : SpiralParams) (i j : ℕ) (hi : i < p.n_phi) (hj : j < p.n_r) :
    cell (mkSurface p).z i j = zval p i j := by
  show cell (List.ofFn fun a : Fin p.n_phi => List.ofFn fun b : Fin p.n_r => zval p a b) i j = _
  rw [cell_ofFn _ i j hi hj]

theorem cell_mkSurface_B (p : SpiralParams) (i j : ℕ) (hi : i < p.n_phi) (hj : j < p.n_r) :
    cell (mkSurface p).B i j = Bval p i j := by
  show cell (List.ofFn fun a : Fin p.n_phi => List.ofFn fun b : Fin p.n_r => Bval p a b) i j = _
  rw [cell_ofFn _ i j hi hj]

/-- With both scalar denominators nonzero, the scalar prelude succeeds
and the full surface is returned. -/
theorem compute_ok (p : SpiralParams) (h3 : p.solar_rot_days ≠ 0) (h4 : p.v_sw_km_s ≠ 0) :
    compute_parker_spiral_surface p = Except.ok (mkSurface p) := by
  unfold compute_parker_spiral_surface
  rw [if_neg h3, if_neg h4]

theorem linspace_zero (a b : ℝ) (n : ℕ) : linspace a b n 0 = a := by
  simp [linspace]

theorem linspace_last (a b : ℝ) (n : ℕ) (hn : 2 ≤ n) : linspace a b n (n - 1) = b := by
  have h1 : ((n - 1 : ℕ) : ℝ) = (n : ℝ) - 1 := by
    push_cast [Nat.cast_sub (by omega : 1 ≤ n)]
    ring
  have h2 : ((n : ℝ) - 1) ≠ 0 := by
    have : (2 : ℝ) ≤ (n : ℝ) := by exact_mod_cast hn
    linarith
  unfold linspace
  rw [h1]
  field_simp

/-- Every sampled radius is at least the inner radius. -/
theorem r_vals_ge (p : SpiralParams) (h2 : p.r_min < p.r_max) (j : ℕ) (hj : j < p.n_r) :
    p.r_min ≤ r_vals p j := by
  unfold r_vals linspace
  rcases Nat.lt_or_ge p.n_r 2 with hn | hn
  · have hj0 : j = 0 := by omega
    subst hj0
    simp
  · have h3 : (0 : ℝ) < (p.n_r : ℝ) - 1 := by
      have : (2 : ℝ) ≤ (p.n_r : ℝ) := by exact_mod_cast hn
      linarith
    have h4 : (0 : ℝ) ≤ (j : ℝ) * (p.r_max - p.r_min) / ((p.n_r : ℝ) - 1) := by
      apply div_nonneg _ (le_of_lt h3)
      apply mul_nonneg (Nat.cast_nonneg j)
      linarith
    linarith

theorem r_vals_pos (p : SpiralParams) (h1 : 0 < p.r_min) (h2 : p.r_min < p.r_max)
    (j : ℕ) (hj : j < p.n_r) : 0 < r_vals p j :=
  lt_of_lt_of_le h1 (r_vals_ge p h2 j hj)

theorem B0_norm_pos (p : SpiralParams) : 0 < B0_norm p := by
  unfold B0_norm
  positivity

theorem Bval_pos (p : SpiralParams) (h1 : 0 < p.r_min) (h2 : p.r_min < p.r_max)
    (i j : ℕ) (hj : j < p.n_r) : 0 < Bval p i j := by
  have hr := r_vals_pos p h1 h2 j hj
  have hb := B0_norm_pos p
  unfold Bval
  positivity

theorem sin_four_pi : Real.sin (2 * (2 * Real.pi)) = 0 := by
  have h : (2 : ℝ) * (2 * Real.pi) = (4 : ℕ) * Real.pi := by push_cast; ring
  rw [h, Real.sin_nat_mul_pi]

/-- The polar angle on the last azimuthal row equals the one on the
first: the undulation term has period pi in phi. -/
theorem theta_seam (p : SpiralParams) (hp : 2 ≤ p.n_phi) :
    theta p (p.n_phi - 1) = theta p 0 := by
  unfold theta phi_vals
  rw [linspace_last _ _ _ hp, linspace_zero]
  rw [sin_four_pi]
  norm_num

theorem xval_seam (p : SpiralParams) (hp : 2 ≤ p.n_phi) (j : ℕ) :
    xval p (p.n_phi - 1) j = xval p 0 j := by
  unfold xval Phi_spiral
  rw [theta_seam p hp]
  unfold phi_vals
  rw [linspace_last _ _ _ hp, linspace_zero]
  rw [add_comm (2 * Real.pi) _, Real.cos_add_two_pi]
  norm_num

theorem yval_seam (p : SpiralParams) (hp : 2 ≤ p.n_phi) (j : ℕ) :
    yval p (p.n_phi - 1) j = yval p 0 j := by
  unfold yval Phi_spiral
  rw [theta_seam p hp]
  unfold phi_vals
  rw [linspace_last _ _ _ hp, linspace_zero]
  rw [add_comm (2 * Real.pi) _, Real.sin_add_two_pi]
  norm_num

theorem zval_seam (p : SpiralParams) (hp : 2 ≤ p.n_phi) (j : ℕ) :
    zval p (p.n_phi - 1) j = zval p 0 j := by
  unfold zval
  rw [theta_seam p hp]

end ParkerSpiral

/-- C1: reconciling the geocentric-GSE position (149597870.7, 0, 0) km —
dividing each component by the km-per-AU constant, then adding the Earth
offset (1, 0, 0) AU — yields exactly (2.0, 0.0, 0.0) AU in
plot_spacecraft_positions, whose constant is 149597870.7; the copy of the
same reconciliation in main of the parker-spiral module divides by
1.4959787e8 instead and does not yield exactly (2.0, 0.0, 0.0). -/
theorem C1_conversion_eval :
    PspPlusMms.mms_heliocentric ⟨149597870.7, 0, 0⟩ = ⟨2, 0, 0⟩ ∧
    ParkerMain.mms_heliocentric ⟨149597870.7, 0, 0⟩ ≠ ⟨2, 0, 0⟩ := by
  constructor
  · simp only [PspPlusMms.mms_heliocentric, PspPlusMms.mms_pos_au_rel,
      PspPlusMms.earth_heliocentric, PspPlusMms.AU_km]
    norm_num
  · simp only [ParkerMain.mms_heliocentric, ParkerMain.mms_pos_au_rel,
      ParkerMain.earth_heliocentric, ParkerMain.AU_km, ne_eq, Vec3.mk.injEq]
    norm_num

/-- C2: not every kilometer-to-AU conversion divides by 149,597,870.7:
the surface model's constant (line 30) differs from 149597870.7, so its
solar-wind-speed conversion divides by a different value, and main's
reconciliation step (line 284) maps an exact 1 AU displacement in km to
something other than 1 AU. -/
theorem C2_constant_eval :
    ParkerSpiral.AU_km ≠ (149597870.7 : ℝ) ∧
    ParkerMain.AU_km ≠ PspPlusMms.AU_km ∧
    ParkerSpiral.v_sw_AU_day ParkerSpiral.defaultParams ≠
      400 * 86400 / (149597870.7 : ℝ) ∧
    ParkerMain.mms_pos_au_rel ⟨149597870.7, 0, 0⟩ ≠ ⟨1, 0, 0⟩ := by
  refine ⟨?_, ?_, ?_, ?_⟩
  · simp only [ParkerSpiral.AU_km]
    norm_num
  · simp only [ParkerMain.AU_km, PspPlusMms.AU_km]
    norm_num
  · simp only [ParkerSpiral.v_sw_AU_day, ParkerSpiral.AU_km, ParkerSpiral.defaultParams]
    norm_num
  · simp only [ParkerMain.mms_pos_au_rel, ParkerMain.AU_km, ne_eq, Vec3.mk.injEq]
    norm_num

/-- C3 counterexample: with r_min = 1.5 and r_max = 0.1 (so r_min >= r_max)
compute_parker_spiral_surface raises nothing and returns a complete
surface with all n_phi = 4 rows, contradicting the claim that it raises
InvalidParameterError and computes no grid. -/
theorem C3_no_validation_counterexample :
    ParkerSpiral.compute_parker_spiral_surface ⟨1.5, 0.1, 3, 4, 10.0, 15.0, 25.4, 400.0⟩ =
      Except.ok (ParkerSpiral.mkSurface ⟨1.5, 0.1, 3, 4, 10.0, 15.0, 25.4, 400.0⟩) ∧
    (ParkerSpiral.mkSurface ⟨1.5, 0.1, 3, 4, 10.0, 15.0, 25.4, 400.0⟩).x.length = 4 := by
  constructor
  · exact ParkerSpiral.compute_ok _ (by show (25.4 : ℝ) ≠ 0; norm_num)
      (by show (400.0 : ℝ) ≠ 0; norm_num)
  · simp [ParkerSpiral.mkSurface]

/-- C3 amended: compute_parker_spiral_surface validates nothing.  A zero
rotation period or zero wind speed raises ZeroDivisionError at the
scalar divisions of lines 37 and 39, before any grid is built and with
no surface returned; every other parameter set — including
r_min >= r_max and non-positive radii — produces the complete surface
with no error. -/
theorem C3_amended_behavior (p : ParkerSpiral.SpiralParams) :
    (p.solar_rot_days = 0 →
      ParkerSpiral.compute_parker_spiral_surface p =
        Except.error ParkerSpiral.PyError.zeroDivisionError) ∧
    (p.solar_rot_days ≠ 0 → p.v_sw_km_s = 0 →
      ParkerSpiral.compute_parker_spiral_surface p =
        Except.error ParkerSpiral.PyError.zeroDivisionError) ∧
    (p.solar_rot_days ≠ 0 → p.v_sw_km_s ≠ 0 →
      ParkerSpiral.compute_parker_spiral_surface p =
        Except.ok (ParkerSpiral.mkSurface p)) := by
  refine ⟨?_, ?_, ?_⟩
  · intro h
    unfold ParkerSpiral.compute_parker_spiral_surface
    rw [if_pos h]
  · intro h3 h4
    unfold ParkerSpiral.compute_parker_spiral_surface
    rw [if_neg h3, if_pos h4]
  · intro h3 h4
    exact ParkerSpiral.compute_ok p h3 h4

/-- C3 witness: zero wind speed with the default rotation period yields
the ZeroDivisionError outcome. -/
theorem C3_amended_behavior_witness :
    ((25.4 : ℝ) ≠ 0) ∧
    ParkerSpiral.compute_parker_spiral_surface ⟨0.1, 1.5, 2, 2, 10.0, 15.0, 25.4, 0.0⟩ =
      Except.error ParkerSpiral.PyError.zeroDivisionError :=
  ⟨by norm_num,
   (C3_amended_behavior ⟨0.1, 1.5, 2, 2, 10.0, 15.0, 25.4, 0.0⟩).2.1
     (by show (25.4 : ℝ) ≠ 0; norm_num) (by show (0.0 : ℝ) = 0; norm_num)⟩

/-- C4: the reconciliation order (unit conversion before frame-offset
addition) holds where the exact constant is used: (149597870.7,
149597870.7, 0) km GSE yields exactly (2.0, 1.0, 0.0) AU and not the
offset-first value (1 + 149597870.7, 149597870.7, 0); the copy in main
of the parker-spiral module divides by 1.4959787e8 and misses
(2.0, 1.0, 0.0). -/
theorem C4_order_eval :
    PspPlusMms.mms_heliocentric ⟨149597870.7, 149597870.7, 0⟩ = ⟨2, 1, 0⟩ ∧
    PspPlusMms.mms_heliocentric ⟨149597870.7, 149597870.7, 0⟩ ≠
      ⟨1 + 149597870.7, 149597870.7, 0⟩ ∧
    ParkerMain.mms_heliocentric ⟨149597870.7, 149597870.7, 0⟩ ≠ ⟨2, 1, 0⟩ := by
  refine ⟨?_, ?_, ?_⟩
  · simp only [PspPlusMms.mms_heliocentric, PspPlusMms.mms_pos_au_rel,
      PspPlusMms.earth_heliocentric, PspPlusMms.AU_km]
    norm_num
  · simp only [PspPlusMms.mms_heliocentric, PspPlusMms.mms_pos_au_rel,
      PspPlusMms.earth_heliocentric, PspPlusMms.AU_km, ne_eq, Vec3.mk.injEq]
    norm_num
  · simp only [ParkerMain.mms_heliocentric, ParkerMain.mms_pos_au_rel,
      ParkerMain.earth_heliocentric, ParkerMain.AU_km, ne_eq, Vec3.mk.injEq]
    norm_num

/-- C10: get_input never rejects an entry: an entry that strips to empty
returns the default silently, an unparsable entry returns the default
with the warning, a parsable entry returns its value, and in every case
the result is either the default or the parsed value. -/
theorem C10_get_input_total (parse : List Char → Option ℚ) (user_input : List Char)
    (default : ℚ) :
    (strip user_input = [] → get_input parse user_input default = (default, false)) ∧
    (strip user_input ≠ [] → parse user_input = none →
      get_input parse user_input default = (default, true)) ∧
    (strip user_input ≠ [] → ∀ v, parse user_input = some v →
      get_input parse user_input default = (v, false)) ∧
    ((get_input parse user_input default).1 = default ∨
      ∃ v, parse user_input = some v ∧ (get_input parse user_input default).1 = v) := by
  refine ⟨?_, ?_, ?_, ?_⟩
  · intro h
    simp [get_input, h]
  · intro h hp
    simp [get_input, h, hp]
  · intro h v hp
    simp [get_input, h, hp]
  · by_cases h : strip user_input = []
    · left
      simp [get_input, h]
    · cases hp : parse user_input with
      | none =>
        left
        simp [get_input, h, hp]
      | some v =>
        right
        exact ⟨v, rfl, by simp [get_input, h, hp]⟩

/-- C10 witness: an unparsable non-empty entry falls back to the
default 7 and flags the warning. -/
theorem C10_get_input_total_witness :
    (strip ['x'] ≠ []) ∧
    get_input (fun _ => Option.none) ['x'] 7 = (7, true) :=
  ⟨by decide, (C10_get_input_total (fun _ => Option.none) ['x'] 7).2.1 (by decide) rfl⟩

open ParkerSpiral

/-- C5: for every valid SpiralParameters and every grid cell (i, j), the
surface point equals the geometric model — polar angle
(pi/2 - tilt) + amplitude * sin(2 phi), twisted azimuth
phi + alpha * (r - r_min) with alpha the rotation rate divided by the
wind speed in AU/day, Cartesian x, y, z from spherical coordinates —
and the twist vanishes at the innermost radial sample, which is r_min. -/
theorem C5_geometry (p : SpiralParams) (h1 : 0 < p.r_min) (h2 : p.r_min < p.r_max)
    (h3 : 0 < p.solar_rot_days) (h4 : 0 < p.v_sw_km_s) :
    compute_parker_spiral_surface p = Except.ok (mkSurface p) ∧
    (∀ i j, i < p.n_phi → j < p.n_r →
      cell (mkSurface p).x i j =
        r_vals p j *
          Real.sin ((Real.pi / 2 - p.tilt_deg * Real.pi / 180) +
            p.amp_deg * Real.pi / 180 * Real.sin (2 * phi_vals p i)) *
          Real.cos (phi_vals p i +
            (2 * Real.pi / p.solar_rot_days) / (p.v_sw_km_s * 86400 / ParkerSpiral.AU_km) *
              (r_vals p j - p.r_min)) ∧
      cell (mkSurface p).y i j =
        r_vals p j *
          Real.sin ((Real.pi / 2 - p.tilt_deg * Real.pi / 180) +
            p.amp_deg * Real.pi / 180 * Real.sin (2 * phi_vals p i)) *
          Real.sin (phi_vals p i +
            (2 * Real.pi / p.solar_rot_days) / (p.v_sw_km_s * 86400 / ParkerSpiral.AU_km) *
              (r_vals p j - p.r_min)) ∧
      cell (mkSurface p).z i j =
        r_vals p j *
          Real.cos ((Real.pi / 2 - p.tilt_deg * Real.pi / 180) +
            p.amp_deg * Real.pi / 180 * Real.sin (2 * phi_vals p i))) ∧
    (∀ i, Phi_spiral p i 0 = phi_vals p i) ∧
    r_vals p 0 = p.r_min := by
  have h0 : r_vals p 0 = p.r_min := linspace_zero p.r_min p.r_max p.n_r
  refine ⟨compute_ok p (ne_of_gt h3) (ne_of_gt h4), ?_, ?_, h0⟩
  · intro i j hi hj
    refine ⟨?_, ?_, ?_⟩
    · rw [cell_mkSurface_x p i j hi hj]
      simp only [xval, theta, tilt, amp, Phi_spiral, alpha, omega, v_sw_AU_day]
    · rw [cell_mkSurface_y p i j hi hj]
      simp only [yval, theta, tilt, amp, Phi_spiral, alpha, omega, v_sw_AU_day]
    · rw [cell_mkSurface_z p i j hi hj]
      simp only [zval, theta, tilt, amp]
  · intro i
    unfold ParkerSpiral.Phi_spiral
    rw [h0]
    ring

/-- C5 witness: the default parameters are valid and the surface is
returned. -/
theorem C5_geometry_witness :
    ((0 : ℝ) < defaultParams.r_min ∧ defaultParams.r_min < defaultParams.r_max ∧
     (0 : ℝ) < defaultParams.solar_rot_days ∧ (0 : ℝ) < defaultParams.v_sw_km_s) ∧
    compute_parker_spiral_surface defaultParams = Except.ok (mkSurface defaultParams) :=
  ⟨⟨by norm_num [ParkerSpiral.defaultParams], by norm_num [ParkerSpiral.defaultParams],
    by norm_num [ParkerSpiral.defaultParams], by norm_num [ParkerSpiral.defaultParams]⟩,
   (C5_geometry defaultParams (by norm_num [ParkerSpiral.defaultParams])
     (by norm_num [ParkerSpiral.defaultParams]) (by norm_num [ParkerSpiral.defaultParams])
     (by norm_num [ParkerSpiral.defaultParams])).1⟩

/-- C6: for every valid SpiralParameters and every grid cell, the field
magnitude equals B0 * (1/r)^2 * sqrt(1 + (omega r / v)^2 sin(theta)^2)
with B0 = 1 / sqrt(1 + (omega / v)^2 cos(tilt)^2), omega the rotation
rate 2 pi over the period and v the wind speed in AU/day. -/
theorem C6_field (p : SpiralParams) (h1 : 0 < p.r_min) (h2 : p.r_min < p.r_max)
    (h3 : 0 < p.solar_rot_days) (h4 : 0 < p.v_sw_km_s) :
    compute_parker_spiral_surface p = Except.ok (mkSurface p) ∧
    ∀ i j, i < p.n_phi → j < p.n_r →
      cell (mkSurface p).B i j =
        1 / Real.sqrt (1 + ((2 * Real.pi / p.solar_rot_days) /
              (p.v_sw_km_s * 86400 / ParkerSpiral.AU_km)) ^ 2 *
            (Real.cos (p.tilt_deg * Real.pi / 180)) ^ 2) *
          (1 / r_vals p j) ^ 2 *
          Real.sqrt (1 + ((2 * Real.pi / p.solar_rot_days) * r_vals p j /
              (p.v_sw_km_s * 86400 / ParkerSpiral.AU_km)) ^ 2 *
            (Real.sin (theta p i)) ^ 2) := by
  refine ⟨compute_ok p (ne_of_gt h3) (ne_of_gt h4), ?_⟩
  intro i j hi hj
  rw [cell_mkSurface_B p i j hi hj]
  simp only [Bval, B0_norm, omega, v_sw_AU_day, tilt]

/-- C6 witness: the default parameters are valid and the surface is
returned. -/
theorem C6_field_witness :
    ((0 : ℝ) < defaultParams.r_min ∧ defaultParams.r_min < defaultParams.r_max ∧
     (0 : ℝ) < defaultParams.solar_rot_days ∧ (0 : ℝ) < defaultParams.v_sw_km_s) ∧
    compute_parker_spiral_surface defaultParams = Except.ok (mkSurface defaultParams) :=
  ⟨⟨by norm_num [ParkerSpiral.defaultParams], by norm_num [ParkerSpiral.defaultParams],
    by norm_num [ParkerSpiral.defaultParams], by norm_num [ParkerSpiral.defaultParams]⟩,
   (C6_field defaultParams (by norm_num [ParkerSpiral.defaultParams])
     (by norm_num [ParkerSpiral.defaultParams]) (by norm_num [ParkerSpiral.defaultParams])
     (by norm_num [ParkerSpiral.defaultParams])).1⟩

/-- C7: for every valid SpiralParameters the returned point and field
grids all have shape (n_phi, n_r); each (i, j) cell of every grid is the
corresponding per-cell formula of the j-th radial and i-th azimuthal
sample (co-registration over the outer-product grid); the radial samples
are linearly spaced over r_min..r_max and the azimuthal samples over
0..2 pi, endpoints included. -/
theorem C7_shape (p : SpiralParams) (h1 : 0 < p.r_min) (h2 : p.r_min < p.r_max)
    (h3 : 0 < p.solar_rot_days) (h4 : 0 < p.v_sw_km_s) :
    compute_parker_spiral_surface p = Except.ok (mkSurface p) ∧
    ((mkSurface p).x.length = p.n_phi ∧ (mkSurface p).y.length = p.n_phi ∧
     (mkSurface p).z.length = p.n_phi ∧ (mkSurface p).B.length = p.n_phi) ∧
    (∀ i, i < p.n_phi →
      ((mkSurface p).x.getD i []).length = p.n_r ∧
      ((mkSurface p).y.getD i []).length = p.n_r ∧
      ((mkSurface p).z.getD i []).length = p.n_r ∧
      ((mkSurface p).B.getD i []).length = p.n_r) ∧
    (∀ i j, i < p.n_phi → j < p.n_r →
      cell (mkSurface p).x i j = xval p i j ∧
      cell (mkSurface p).y i j = yval p i j ∧
      cell (mkSurface p).z i j = zval p i j ∧
      cell (mkSurface p).B i j = Bval p i j) ∧
    (∀ j, r_vals p j = p.r_min + j * (p.r_max - p.r_min) / ((p.n_r : ℝ) - 1)) ∧
    (∀ i, phi_vals p i = i * (2 * Real.pi) / ((p.n_phi : ℝ) - 1)) ∧
    (r_vals p 0 = p.r_min ∧ (2 ≤ p.n_r → r_vals p (p.n_r - 1) = p.r_max)) ∧
    (phi_vals p 0 = 0 ∧ (2 ≤ p.n_phi → phi_vals p (p.n_phi - 1) = 2 * Real.pi)) := by
  refine ⟨compute_ok p (ne_of_gt h3) (ne_of_gt h4), ?_, ?_, ?_, ?_, ?_, ?_, ?_⟩
  · exact ⟨by simp [mkSurface], by simp [mkSurface], by simp [mkSurface],
      by simp [mkSurface]⟩
  · intro i hi
    refine ⟨?_, ?_, ?_, ?_⟩
    · exact row_length_ofFn (xval p) i hi
    · exact row_length_ofFn (yval p) i hi
    · exact row_length_ofFn (zval p) i hi
    · exact row_length_ofFn (Bval p) i hi
  · intro i j hi hj
    exact ⟨cell_mkSurface_x p i j hi hj, cell_mkSurface_y p i j hi hj,
      cell_mkSurface_z p i j hi hj, cell_mkSurface_B p i j hi hj⟩
  · intro j
    rfl
  · intro i
    simp [phi_vals, linspace]
  · exact ⟨linspace_zero _ _ _, fun h => linspace_last _ _ _ h⟩
  · exact ⟨linspace_zero _ _ _, fun h => linspace_last _ _ _ h⟩

/-- C7 witness: the default parameters are valid and the x grid has the
default 100 rows. -/
theorem C7_shape_witness :
    ((0 : ℝ) < defaultParams.r_min ∧ defaultParams.r_min < defaultParams.r_max ∧
     (0 : ℝ) < defaultParams.solar_rot_days ∧ (0 : ℝ) < defaultParams.v_sw_km_s) ∧
    (mkSurface defaultParams).x.length = defaultParams.n_phi :=
  ⟨⟨by norm_num [ParkerSpiral.defaultParams], by norm_num [ParkerSpiral.defaultParams],
    by norm_num [ParkerSpiral.defaultParams], by norm_num [ParkerSpiral.defaultParams]⟩,
   (C7_shape defaultParams (by norm_num [ParkerSpiral.defaultParams])
     (by norm_num [ParkerSpiral.defaultParams]) (by norm_num [ParkerSpiral.defaultParams])
     (by norm_num [ParkerSpiral.defaultParams])).2.1.1⟩

/-- C8: for valid positive parameters every field cell is strictly
positive, and no division by zero occurs in the field formula since
every sampled radius is bounded below by r_min, itself positive. -/
theorem C8_field_positive (p : SpiralParams) (h1 : 0 < p.r_min) (h2 : p.r_min < p.r_max)
    (h3 : 0 < p.solar_rot_days) (h4 : 0 < p.v_sw_km_s) :
    compute_parker_spiral_surface p = Except.ok (mkSurface p) ∧
    (∀ j, j < p.n_r → p.r_min ≤ r_vals p j ∧ 0 < r_vals p j) ∧
    (∀ i j, i < p.n_phi → j < p.n_r → 0 < cell (mkSurface p).B i j) := by
  refine ⟨compute_ok p (ne_of_gt h3) (ne_of_gt h4), ?_, ?_⟩
  · intro j hj
    exact ⟨r_vals_ge p h2 j hj, r_vals_pos p h1 h2 j hj⟩
  · intro i j hi hj
    rw [cell_mkSurface_B p i j hi hj]
    exact Bval_pos p h1 h2 i j hj

/-- C8 witness: positivity of the field at cell (0, 0) for the default
parameters. -/
theorem C8_field_positive_witness :
    ((0 : ℝ) < defaultParams.r_min ∧ defaultParams.r_min < defaultParams.r_max ∧
     (0 : ℝ) < defaultParams.solar_rot_days ∧ (0 : ℝ) < defaultParams.v_sw_km_s ∧
     0 < defaultParams.n_phi ∧ 0 < defaultParams.n_r) ∧
    0 < cell (mkSurface defaultParams).B 0 0 :=
  ⟨⟨by norm_num [ParkerSpiral.defaultParams], by norm_num [ParkerSpiral.defaultParams],
    by norm_num [ParkerSpiral.defaultParams], by norm_num [ParkerSpiral.defaultParams],
    by norm_num [ParkerSpiral.defaultParams], by norm_num [ParkerSpiral.defaultParams]⟩,
   (C8_field_positive defaultParams (by norm_num [ParkerSpiral.defaultParams])
     (by norm_num [ParkerSpiral.defaultParams]) (by norm_num [ParkerSpiral.defaultParams])
     (by norm_num [ParkerSpiral.defaultParams])).2.2 0 0
     (by norm_num [ParkerSpiral.defaultParams]) (by norm_num [ParkerSpiral.defaultParams])⟩

/-- C9: the surface closes at the azimuthal seam: in exact real
arithmetic the first (phi = 0) and last (phi = 2 pi) azimuthal rows of
the x, y and z point grids agree pointwise, since the undulation uses
sin(2 phi) and the twisted azimuth enters only through sine and cosine,
all periodic with period 2 pi. -/
theorem C9_seam (p : SpiralParams) (hp : 0 < p.n_phi) :
    ∀ j, j < p.n_r →
      cell (mkSurface p).x 0 j = cell (mkSurface p).x (p.n_phi - 1) j ∧
      cell (mkSurface p).y 0 j = cell (mkSurface p).y (p.n_phi - 1) j ∧
      cell (mkSurface p).z 0 j = cell (mkSurface p).z (p.n_phi - 1) j := by
  intro j hj
  have hlast : p.n_phi - 1 < p.n_phi := by omega
  rw [cell_mkSurface_x p 0 j hp hj, cell_mkSurface_x p _ j hlast hj,
    cell_mkSurface_y p 0 j hp hj, cell_mkSurface_y p _ j hlast hj,
    cell_mkSurface_z p 0 j hp hj, cell_mkSurface_z p _ j hlast hj]
  rcases Nat.lt_or_ge p.n_phi 2 with h | h
  · have h0 : p.n_phi - 1 = 0 := by omega
    rw [h0]
    exact ⟨rfl, rfl, rfl⟩
  · exact ⟨(xval_seam p h j).symm, (yval_seam p h j).symm, (zval_seam p h j).symm⟩

/-- C9 witness: seam closure of the x grid at the innermost radius for
the default parameters. -/
theorem C9_seam_witness :
    (0 < defaultParams.n_phi ∧ 0 < defaultParams.n_r) ∧
    cell (mkSurface defaultParams).x 0 0 =
      cell (mkSurface defaultParams).x (defaultParams.n_phi - 1) 0 :=
  ⟨⟨by norm_num [ParkerSpiral.defaultParams], by norm_num [ParkerSpiral.defaultParams]⟩,
   (C9_seam defaultParams (by norm_num [ParkerSpiral.defaultParams]) 0
     (by norm_num [ParkerSpiral.defaultParams])).1⟩
